import Mathlib

/-!
Shallow embedding of `src/tower_msgs.rs` (ldk-sample watchtower custom
messages): the message codec, the tower-message dispatcher, and the pending
outbound queue, together with theorems settling the specification claims.

Machine integers are modelled as `Nat` with explicit reductions modulo
`2 ^ w` where Rust wrapping semantics matter; wire buffers are `List Nat`
of byte values; fallible operations return `Except`.
-/

namespace TowerMsgs

/-- A wire byte, modelled as a natural number (well-formed when `< 256`). -/
abbrev Byte := Nat

/-- Structural validity of a 33-byte SEC1 compressed point encoding as
checked by the secp256k1 dependency when LDK reads a `PublicKey` off the
wire: exactly 33 bytes, each a byte value, with compressed tag `0x02` or
`0x03`.  The elliptic-curve membership test performed inside the external
secp256k1 library is abstracted to this structural check; the repository
never constructs or inspects key bytes itself. -/
def validPubkeyBytes (bs : List Byte) : Bool :=
  bs.length == 33 && bs.all (fun b => b < 256) &&
    (bs.headD 0 == 2 || bs.headD 0 == 3)

/-- `bitcoin::secp256k1::key::PublicKey`, represented by its compressed
serialization (the only view of it this repository uses). -/
def PublicKey := { bs : List Byte // validPubkeyBytes bs = true }

instance : DecidableEq PublicKey := fun a b =>
  decidable_of_iff (a.val = b.val) Subtype.ext_iff.symm

/-- `lightning::ln::msgs::DecodeError` (the variants reachable from this
repository's codec paths). -/
inductive DecodeError where
  | shortRead
  | invalidValue
  deriving DecidableEq, Repr

/-- `lightning::util::logger::Level`. -/
inductive Level where
  | Gossip
  | Trace
  | Debug
  | Info
  | Warn
  | Error
  deriving DecidableEq, Repr

/-- `lightning::ln::msgs::WarningMessage`. -/
structure WarningMessage where
  channel_id : List Byte
  data : String
  deriving DecidableEq, Repr

/-- `lightning::ln::msgs::ErrorAction` (the variant this repository uses). -/
inductive ErrorAction where
  | SendWarningMessage (msg : WarningMessage) (log_level : Level)
  deriving DecidableEq, Repr

/-- `lightning::ln::msgs::LightningError`. -/
structure LightningError where
  err : String
  action : ErrorAction
  deriving DecidableEq, Repr

/-- The `Register` message (`src/tower_msgs.rs`): the user sends this to the
tower to register for the watching service.  `appointment_slots` and
`subscription_period` are Rust `u32` fields, modelled as `Nat`. -/
structure Register where
  pubkey : PublicKey
  appointment_slots : Nat
  subscription_period : Nat
  deriving DecidableEq

/-- Well-formedness of a `Register` value: its `u32` fields are in range. -/
def Register.wf (m : Register) : Prop :=
  m.appointment_slots < 2 ^ 32 ∧ m.subscription_period < 2 ^ 32

instance (m : Register) : Decidable m.wf := by
  unfold Register.wf; infer_instance

/-- The `SubscriptionDetails` message (`src/tower_msgs.rs`): the tower's
reply, with the maximum appointment size (`u16`) and the subscription fee in
msat (`u32`). -/
structure SubscriptionDetails where
  appointment_max_size : Nat
  amount_msat : Nat
  deriving DecidableEq, Repr

/-- Well-formedness of a `SubscriptionDetails` value: fields in range. -/
def SubscriptionDetails.wf (m : SubscriptionDetails) : Prop :=
  m.appointment_max_size < 2 ^ 16 ∧ m.amount_msat < 2 ^ 32

instance (m : SubscriptionDetails) : Decidable m.wf := by
  unfold SubscriptionDetails.wf; infer_instance

/-- `TowerMessage`: all the messages the tower can send and receive. -/
inductive TowerMessage where
  | Register (msg : Register)
  | SubscriptionDetails (msg : SubscriptionDetails)
  deriving DecidableEq

/-- `Register::TYPE` (`impl Encode for Register`). -/
def Register.TYPE : Nat := 45768

/-- `SubscriptionDetails::TYPE` (`impl Encode for SubscriptionDetails`). -/
def SubscriptionDetails.TYPE : Nat := 45770

/-- `impl Type for TowerMessage`: the wire type identifier of a message. -/
def TowerMessage.type_id : TowerMessage → Nat
  | .Register _ => Register.TYPE
  | .SubscriptionDetails _ => SubscriptionDetails.TYPE

/-! ## Wire codec

LDK serializes `u16`/`u32` big-endian and a `PublicKey` as its 33-byte
compressed encoding.  A reader consumes a prefix of a byte list and returns
the decoded value together with the unconsumed rest. -/

/-- Read exactly `n` bytes from the front of a buffer; LDK surfaces an
under-long read as `DecodeError::ShortRead`. -/
def readBytes (n : Nat) (bs : List Byte) :
    Except DecodeError (List Byte × List Byte) :=
  if bs.length < n then .error .shortRead else .ok (bs.take n, bs.drop n)

/-- Big-endian interpretation of a byte list. -/
def beBytesToNat (bs : List Byte) : Nat :=
  bs.foldl (fun acc b => acc * 256 + b) 0

/-- Big-endian serialization of a `u16` (`u16::to_be_bytes`). -/
def u16Write (n : Nat) : List Byte :=
  [n / 2 ^ 8 % 256, n % 256]

/-- Big-endian serialization of a `u32` (`u32::to_be_bytes`). -/
def u32Write (n : Nat) : List Byte :=
  [n / 2 ^ 24 % 256, n / 2 ^ 16 % 256, n / 2 ^ 8 % 256, n % 256]

/-- LDK `Readable` for `u16`: two big-endian bytes. -/
def u16Read (bs : List Byte) : Except DecodeError (Nat × List Byte) :=
  match readBytes 2 bs with
  | .error e => .error e
  | .ok (nb, rest) => .ok (beBytesToNat nb, rest)

/-- LDK `Readable` for `u32`: four big-endian bytes. -/
def u32Read (bs : List Byte) : Except DecodeError (Nat × List Byte) :=
  match readBytes 4 bs with
  | .error e => .error e
  | .ok (nb, rest) => .ok (beBytesToNat nb, rest)

/-- LDK `Writeable` for `PublicKey`: the 33-byte compressed serialization. -/
def PublicKey.write (pk : PublicKey) : List Byte := pk.val

/-- LDK `Readable` for `PublicKey`: read 33 bytes, then parse them; a
structurally invalid encoding becomes `DecodeError::InvalidValue`. -/
def PublicKey.read (bs : List Byte) :
    Except DecodeError (PublicKey × List Byte) :=
  match readBytes 33 bs with
  | .error e => .error e
  | .ok (kb, rest) =>
      if h : validPubkeyBytes kb = true then .ok (⟨kb, h⟩, rest)
      else .error .invalidValue

/-- `impl Writeable for Register`: pubkey, then the two `u32` fields, in
declared order. -/
def Register.write (m : Register) : List Byte :=
  m.pubkey.write ++ u32Write m.appointment_slots ++
    u32Write m.subscription_period

/-- `impl Readable for Register`: fields read in declared order, errors
propagated with `?`. -/
def Register.read (bs : List Byte) :
    Except DecodeError (Register × List Byte) :=
  match PublicKey.read bs with
  | .error e => .error e
  | .ok (pk, bs₁) =>
      match u32Read bs₁ with
      | .error e => .error e
      | .ok (slots, bs₂) =>
          match u32Read bs₂ with
          | .error e => .error e
          | .ok (period, bs₃) =>
              .ok (⟨pk, slots, period⟩, bs₃)

/-- `impl Writeable for SubscriptionDetails`: `u16` then `u32`, in declared
order. -/
def SubscriptionDetails.write (m : SubscriptionDetails) : List Byte :=
  u16Write m.appointment_max_size ++ u32Write m.amount_msat

/-- `impl Readable for SubscriptionDetails`: fields read in declared order,
errors propagated with `?`. -/
def SubscriptionDetails.read (bs : List Byte) :
    Except DecodeError (SubscriptionDetails × List Byte) :=
  match u16Read bs with
  | .error e => .error e
  | .ok (sz, bs₁) =>
      match u32Read bs₁ with
      | .error e => .error e
      | .ok (amt, bs₂) => .ok (⟨sz, amt⟩, bs₂)

/-- `impl CustomMessageReader for TowerMessageHandler`: dispatch on the type
identifier; decode a recognized type, return `none` for an unknown one. -/
def towerMessageReaderRead (message_type : Nat) (buffer : List Byte) :
    Except DecodeError (Option TowerMessage) :=
  if message_type = Register.TYPE then
    match Register.read buffer with
    | .error e => .error e
    | .ok (m, _) => .ok (some (.Register m))
  else if message_type = SubscriptionDetails.TYPE then
    match SubscriptionDetails.read buffer with
    | .error e => .error e
    | .ok (m, _) => .ok (some (.SubscriptionDetails m))
  else
    .ok none

/-! ## Dispatcher and handler -/

/-- `TowerMessageHandler::handle_tower_message`.  The `u32` product
`appointment_slots * subscription_period` is unchecked Rust arithmetic,
modelled by an explicit reduction modulo `2 ^ 32`. -/
def handle_tower_message (msg : TowerMessage) :
    Except LightningError TowerMessage :=
  match msg with
  | .Register m =>
      .ok (.SubscriptionDetails
        { appointment_max_size := 30
          amount_msat :=
            m.appointment_slots * m.subscription_period % 2 ^ 32 })
  | .SubscriptionDetails _ =>
      .error
        { err := "A SubscriptionDetails message wasn\x27t expected!"
          action := .SendWarningMessage
            { channel_id := List.replicate 32 0
              data := "You sent me a SubscriptionDetails message but I didn\x27t register!" }
            .Debug }

/-- The pending-message queue held by `TowerMessageHandler` (the contents of
`msg_q`; `Vec::push` appends at the tail). -/
abbrev MsgQueue := List (PublicKey × TowerMessage)

/-- `TowerMessageHandler::send_message`: push `(pubkey, msg)` onto the
queue. -/
def send_message (q : MsgQueue) (pubkey : PublicKey) (msg : TowerMessage) :
    MsgQueue :=
  q ++ [(pubkey, msg)]

/-- `TowerMessageHandler::handle_custom_message`: dispatch the message; on
success push `(sender_node_id, reply)`, on failure return the error (the
`?` operator leaves the queue untouched). -/
def handle_custom_message (q : MsgQueue) (msg : TowerMessage)
    (sender_node_id : PublicKey) : Except LightningError MsgQueue :=
  match handle_tower_message msg with
  | .error e => .error e
  | .ok reply => .ok (q ++ [(sender_node_id, reply)])

/-- `TowerMessageHandler::get_and_clear_pending_msg`: swap the queue for an
empty one, returning `(drained contents, new queue state)`. -/
def get_and_clear_pending_msg (q : MsgQueue) : MsgQueue × MsgQueue :=
  (q, [])

/-- A concrete well-formed public key, used for witnesses. -/
def pk0 : PublicKey := ⟨2 :: List.replicate 32 0, by decide⟩

/-- A concrete well-formed public key, used for witnesses. -/
def pk1 : PublicKey := ⟨3 :: List.replicate 32 7, by decide⟩

/-! ## Helper lemmas -/

lemma readBytes_append (l rest : List Byte) :
    readBytes l.length (l ++ rest) = .ok (l, rest) := by
  simp [readBytes, List.take_left, List.drop_left]

lemma u32Write_length (n : Nat) : (u32Write n).length = 4 := rfl

lemma u16Write_length (n : Nat) : (u16Write n).length = 2 := rfl

lemma beBytesToNat_u32Write (n : Nat) (h : n < 2 ^ 32) :
    beBytesToNat (u32Write n) = n := by
  simp only [beBytesToNat, u32Write, List.foldl]
  omega

lemma beBytesToNat_u16Write (n : Nat) (h : n < 2 ^ 16) :
    beBytesToNat (u16Write n) = n := by
  simp only [beBytesToNat, u16Write, List.foldl]
  omega

lemma u32_roundtrip (n : Nat) (h : n < 2 ^ 32) (rest : List Byte) :
    u32Read (u32Write n ++ rest) = .ok (n, rest) := by
  have h4 : readBytes 4 (u32Write n ++ rest) = .ok (u32Write n, rest) := by
    have := readBytes_append (u32Write n) rest
    rwa [u32Write_length] at this
  simp [u32Read, h4, beBytesToNat_u32Write n h]

lemma u16_roundtrip (n : Nat) (h : n < 2 ^ 16) (rest : List Byte) :
    u16Read (u16Write n ++ rest) = .ok (n, rest) := by
  have h2 : readBytes 2 (u16Write n ++ rest) = .ok (u16Write n, rest) := by
    have := readBytes_append (u16Write n) rest
    rwa [u16Write_length] at this
  simp [u16Read, h2, beBytesToNat_u16Write n h]

lemma pubkey_length (pk : PublicKey) : pk.val.length = 33 := by
  have h := pk.property
  simp only [validPubkeyBytes, Bool.and_eq_true, beq_iff_eq] at h
  exact h.1.1

lemma pubkey_roundtrip (pk : PublicKey) (rest : List Byte) :
    PublicKey.read (pk.write ++ rest) = .ok (pk, rest) := by
  have h33 : readBytes 33 (pk.val ++ rest) = .ok (pk.val, rest) := by
    have := readBytes_append pk.val rest
    rwa [pubkey_length] at this
  simp [PublicKey.read, PublicKey.write, h33, pk.property]

/-! ## Claim theorems -/

/-- C1 (counterexample): as stated, the claim that `amount_msat` always
equals the mathematical product `slots * period` fails: for
`slots = period = 2 ^ 16` the dispatcher returns `amount_msat = 0`, while
the mathematical product is `2 ^ 32 ≠ 0`. -/
theorem C1_counterexample :
    handle_tower_message (.Register ⟨pk0, 2 ^ 16, 2 ^ 16⟩)
      = .ok (.SubscriptionDetails ⟨30, 0⟩)
    ∧ (0 : Nat) ≠ 2 ^ 16 * 2 ^ 16 := by
  refine ⟨rfl, by norm_num⟩

/-- C1 (amended): for every inbound `Register`, `handle_tower_message`
returns `Ok` of a `SubscriptionDetails` with `appointment_max_size = 30`
and `amount_msat = slots * period` reduced modulo `2 ^ 32` (the unchecked
`u32` product); in particular `Register{slots := 10, period := 3}` yields
`Ok (SubscriptionDetails{appointment_max_size := 30, amount_msat := 30})`. -/
theorem C1_register_dispatch (pk : PublicKey) (slots period : Nat) :
    handle_tower_message (.Register ⟨pk, slots, period⟩)
      = .ok (.SubscriptionDetails ⟨30, slots * period % 2 ^ 32⟩)
    ∧ handle_tower_message (.Register ⟨pk, 10, 3⟩)
      = .ok (.SubscriptionDetails ⟨30, 30⟩) :=
  ⟨rfl, rfl⟩

/-- C2: encode-then-decode is the identity: for every well-formed `Register`
value, `Register.read (Register.write m)` returns `Ok (m, [])`, and likewise
for every well-formed `SubscriptionDetails` value. -/
theorem C2_roundtrip (m : Register) (sd : SubscriptionDetails)
    (hm : m.wf) (hsd : sd.wf) :
    Register.read (Register.write m) = .ok (m, [])
    ∧ SubscriptionDetails.read (SubscriptionDetails.write sd)
      = .ok (sd, []) := by
  constructor
  · have hpk : PublicKey.read
        (m.pubkey.write ++ (u32Write m.appointment_slots ++
          (u32Write m.subscription_period ++ []))) =
        .ok (m.pubkey, u32Write m.appointment_slots ++
          (u32Write m.subscription_period ++ [])) :=
      pubkey_roundtrip m.pubkey _
    have hs : u32Read (u32Write m.appointment_slots ++
        (u32Write m.subscription_period ++ [])) =
        .ok (m.appointment_slots, u32Write m.subscription_period ++ []) :=
      u32_roundtrip _ hm.1 _
    have hp : u32Read (u32Write m.subscription_period ++ []) =
        .ok (m.subscription_period, []) :=
      u32_roundtrip _ hm.2 _
    simp only [Register.read, Register.write, List.append_assoc,
      List.append_nil] at hpk hs hp ⊢
    simp [hpk, hs, hp]
  · have hsz : u16Read (u16Write sd.appointment_max_size ++
        (u32Write sd.amount_msat ++ [])) =
        .ok (sd.appointment_max_size, u32Write sd.amount_msat ++ []) :=
      u16_roundtrip _ hsd.1 _
    have ha : u32Read (u32Write sd.amount_msat ++ []) =
        .ok (sd.amount_msat, []) :=
      u32_roundtrip _ hsd.2 _
    simp only [SubscriptionDetails.read, SubscriptionDetails.write,
      List.append_assoc, List.append_nil] at hsz ha ⊢
    simp [hsz, ha]

/-- C2 witness: the round trip evaluated at a concrete well-formed
`Register` and `SubscriptionDetails`. -/
theorem C2_roundtrip_witness :
    Register.read (Register.write ⟨pk0, 10, 3⟩) = .ok (⟨pk0, 10, 3⟩, [])
    ∧ SubscriptionDetails.read (SubscriptionDetails.write ⟨30, 30⟩)
      = .ok (⟨30, 30⟩, []) :=
  C2_roundtrip ⟨pk0, 10, 3⟩ ⟨30, 30⟩ (by constructor <;> norm_num)
    (by constructor <;> norm_num)

/-- C3: every inbound `SubscriptionDetails`, whatever its field values,
makes the dispatcher return the fixed unexpected-message `LightningError`
with its fixed reason string and a send-warning action; it never returns
`Ok`. -/
theorem C3_subscription_details_rejected (sd : SubscriptionDetails) :
    handle_tower_message (.SubscriptionDetails sd)
      = .error
          { err := "A SubscriptionDetails message wasn\x27t expected!"
            action := .SendWarningMessage
              { channel_id := List.replicate 32 0
                data := "You sent me a SubscriptionDetails message but I didn\x27t register!" }
              .Debug }
    ∧ ∀ r, handle_tower_message (.SubscriptionDetails sd) ≠ .ok r :=
  ⟨rfl, fun _ h => Except.noConfusion h⟩

/-- C3 witness (the theorem has the binder-free instance built in, but the
universally quantified conjunct is discharged at a concrete reply). -/
theorem C3_subscription_details_rejected_witness :
    handle_tower_message (.SubscriptionDetails ⟨1, 2⟩)
      ≠ .ok (.SubscriptionDetails ⟨1, 2⟩) :=
  (C3_subscription_details_rejected ⟨1, 2⟩).2 _

/-- C4: draining returns exactly the current queue contents and leaves the
queue empty; a second immediate drain returns the empty sequence; draining
a never-populated queue returns the empty sequence and changes nothing. -/
theorem C4_drain (q : MsgQueue) :
    get_and_clear_pending_msg q = (q, [])
    ∧ get_and_clear_pending_msg (get_and_clear_pending_msg q).2 = ([], [])
    ∧ get_and_clear_pending_msg ([] : MsgQueue) = ([], []) :=
  ⟨rfl, rfl, rfl⟩

/-- C5: `handle_custom_message` either succeeds and appends exactly the one
entry `(sender, reply)` with the dispatcher reply, or fails with the
dispatcher error and the queue is unchanged (no new queue state is
produced). -/
theorem C5_handle_custom_message (q : MsgQueue) (msg : TowerMessage)
    (sender : PublicKey) :
    (∃ reply, handle_tower_message msg = .ok reply
      ∧ handle_custom_message q msg sender = .ok (q ++ [(sender, reply)]))
    ∨ (∃ e, handle_tower_message msg = .error e
      ∧ handle_custom_message q msg sender = .error e) := by
  cases msg with
  | Register m => exact .inl ⟨_, rfl, rfl⟩
  | SubscriptionDetails m => exact .inr ⟨_, rfl, rfl⟩

/-- C6: for every type identifier outside `{45768, 45770}` and every
buffer, the registry read returns `Ok none` — no match, never a decode
error. -/
theorem C6_unknown_type (t : Nat) (bs : List Byte)
    (h₁ : t ≠ Register.TYPE) (h₂ : t ≠ SubscriptionDetails.TYPE) :
    towerMessageReaderRead t bs = .ok none := by
  simp [towerMessageReaderRead, h₁, h₂]

/-- C6 witness: type id 9999 with a nonempty buffer yields `Ok none`. -/
theorem C6_unknown_type_witness :
    towerMessageReaderRead 9999 [1, 2, 3] = .ok none :=
  C6_unknown_type 9999 [1, 2, 3] (by decide) (by decide)

/-- C7: for the recognized type id 45768 (`Register`), every buffer shorter
than the fixed minimum length 41 (= 33-byte point + two 4-byte integers)
makes the registry read return a `DecodeError` rather than `Ok`. -/
theorem C7_truncated (bs : List Byte) (hlen : bs.length < 41) :
    ∃ e, towerMessageReaderRead Register.TYPE bs = .error e := by
  by_cases h33 : bs.length < 33
  · exact ⟨.shortRead, by
      simp [towerMessageReaderRead, Register.read, PublicKey.read,
        readBytes, h33]⟩
  · by_cases hv : validPubkeyBytes (bs.take 33) = true
    · by_cases h37 : bs.length < 37
      · refine ⟨.shortRead, ?_⟩
        have hd : bs.length - 33 < 4 := by omega
        simp [towerMessageReaderRead, Register.read, PublicKey.read,
          u32Read, readBytes, h33, hv, hd]
      · refine ⟨.shortRead, ?_⟩
        have hd : ¬ bs.length - 33 < 4 := by omega
        have hd2 : bs.length - 37 < 4 := by omega
        simp [towerMessageReaderRead, Register.read, PublicKey.read,
          u32Read, readBytes, h33, hv, hd, hd2]
    · exact ⟨.invalidValue, by
        simp [towerMessageReaderRead, Register.read, PublicKey.read,
          readBytes, h33, hv]⟩

/-- C7 witness: the empty buffer is shorter than 41 bytes and decoding it
under type id 45768 yields a `DecodeError`. -/
theorem C7_truncated_witness :
    ∃ e, towerMessageReaderRead Register.TYPE [] = .error e :=
  C7_truncated [] (by decide)

/-- C8: per-producer FIFO: enqueueing entry A then entry B — by two
`send_message` calls, or by two successful `handle_custom_message` calls —
makes the next drain return a sequence with A strictly before B. -/
theorem C8_fifo (q : MsgQueue) (a b : PublicKey) (ma mb : TowerMessage) :
    (get_and_clear_pending_msg (send_message (send_message q a ma) b mb)).1
      = q ++ [(a, ma), (b, mb)]
    ∧ ∀ (m₁ m₂ : TowerMessage) (q₁ q₂ : MsgQueue),
        handle_custom_message q m₁ a = .ok q₁ →
        handle_custom_message q₁ m₂ b = .ok q₂ →
        ∃ r₁ r₂, (get_and_clear_pending_msg q₂).1 = q ++ [(a, r₁), (b, r₂)] := by
  constructor
  · simp [send_message, get_and_clear_pending_msg]
  · intro m₁ m₂ q₁ q₂ h₁ h₂
    cases m₁ with
    | SubscriptionDetails m =>
        simp [handle_custom_message, handle_tower_message] at h₁
    | Register r₁ =>
        cases m₂ with
        | SubscriptionDetails m =>
            simp [handle_custom_message, handle_tower_message] at h₂
        | Register r₂ =>
            simp only [handle_custom_message, handle_tower_message,
              Except.ok.injEq] at h₁ h₂
            refine ⟨.SubscriptionDetails
                ⟨30, r₁.appointment_slots * r₁.subscription_period % 2 ^ 32⟩,
              .SubscriptionDetails
                ⟨30, r₂.appointment_slots * r₂.subscription_period % 2 ^ 32⟩,
              ?_⟩
            subst h₂
            subst h₁
            simp [get_and_clear_pending_msg]

/-- C8 witness: two successful dispatch-enqueues at concrete inputs drain
in call order. -/
theorem C8_fifo_witness :
    ∃ r₁ r₂,
      (get_and_clear_pending_msg
        [(pk0, .SubscriptionDetails ⟨30, 2⟩),
         (pk1, .SubscriptionDetails ⟨30, 12⟩)]).1
        = [] ++ [(pk0, r₁), (pk1, r₂)] :=
  (C8_fifo [] pk0 pk1 (.Register ⟨pk0, 0, 0⟩) (.Register ⟨pk0, 0, 0⟩)).2
    (.Register ⟨pk0, 1, 2⟩) (.Register ⟨pk1, 3, 4⟩)
    [(pk0, .SubscriptionDetails ⟨30, 2⟩)]
    [(pk0, .SubscriptionDetails ⟨30, 2⟩), (pk1, .SubscriptionDetails ⟨30, 12⟩)]
    rfl rfl

/-- C9: the `amount_msat` multiplication is unchecked 32-bit arithmetic:
whenever the mathematical product fits in `u32` the returned `amount_msat`
equals it, and at `slots = period = 2 ^ 16` the computed value (the product
modulo `2 ^ 32`, namely 0) differs from the mathematical product. -/
theorem C9_overflow :
    (∀ (pk : PublicKey) (slots period : Nat), slots * period < 2 ^ 32 →
      handle_tower_message (.Register ⟨pk, slots, period⟩)
        = .ok (.SubscriptionDetails ⟨30, slots * period⟩))
    ∧ handle_tower_message (.Register ⟨pk0, 2 ^ 16, 2 ^ 16⟩)
        = .ok (.SubscriptionDetails ⟨30, 2 ^ 16 * 2 ^ 16 % 2 ^ 32⟩)
    ∧ 2 ^ 16 * 2 ^ 16 % 2 ^ 32 ≠ 2 ^ 16 * 2 ^ 16 := by
  refine ⟨fun pk slots period h => ?_, rfl, by norm_num⟩
  have hmod : slots * period % 2 ^ 32 = slots * period := Nat.mod_eq_of_lt h
  simp only [handle_tower_message]
  rw [hmod]

/-- C9 witness: the in-range part evaluated at `slots = 10, period = 3`. -/
theorem C9_overflow_witness :
    handle_tower_message (.Register ⟨pk1, 10, 3⟩)
      = .ok (.SubscriptionDetails ⟨30, 10 * 3⟩) :=
  C9_overflow.1 pk1 10 3 (by norm_num)

/-- C10: the `pubkey` field inside a `Register` payload is ignored: two
`Register` messages differing only in `pubkey` dispatch identically, and
`handle_custom_message` keys the enqueued reply by the transport-level
`sender_node_id`, never by the payload `pubkey`. -/
theorem C10_pubkey_ignored (pk₁ pk₂ : PublicKey) (s p : Nat)
    (q : MsgQueue) (sender : PublicKey) :
    handle_tower_message (.Register ⟨pk₁, s, p⟩)
      = handle_tower_message (.Register ⟨pk₂, s, p⟩)
    ∧ handle_custom_message q (.Register ⟨pk₁, s, p⟩) sender
      = handle_custom_message q (.Register ⟨pk₂, s, p⟩) sender
    ∧ handle_custom_message q (.Register ⟨pk₁, s, p⟩) sender
      = .ok (q ++ [(sender, .SubscriptionDetails ⟨30, s * p % 2 ^ 32⟩)]) :=
  ⟨rfl, rfl, rfl⟩

end TowerMsgs
